import Mathlib

/-!
# ClearInvoice-AE — invoice document synthesis, shallow embedding

This file embeds the core document-synthesis pipeline of the repository
(`src/utils.py`): the Fatoora TLV/QR encoder, the monetary line arithmetic
shared by the PDF and XML renderers, the bank-details resolution chain and
the emirate code mapping, together with the record types they consume.

Modelling conventions:

* Monetary quantities are embedded as exact rationals.  The Python source
  converts the stored Decimal column values to IEEE-754 doubles before the
  per-line arithmetic (utils.py lines 227-229, 561-563, 596-598); the exact
  embedding matches the spec's §4.1 arithmetic model, and the one observable
  divergence this float detour causes is isolated and examined in the
  theorems for claim C4.
* Python string formatting with the `.2f` spec rounds half-to-even; this is
  mirrored by `roundHalfEven` below.
* Python truthiness on optional strings (where an empty string counts as
  absent, as in `a or b`) is mirrored by `pyOr`.
* `None`-able Python attributes become `Option` fields.
* The `Invoice` / `Company` / `Client` Django models live in the invoices
  app, which is not part of src/ (only this partners app is); their fields
  are reconstructed from how utils.py reads them and from spec §3.
-/

/-- A stored per-company bank account, mirroring the CompanyBankDetails rows
read at utils.py:409-416 (`bank_details.filter(is_default=True).first()`). -/
structure BankAccount where
  is_default : Bool
  bank_name : String
  account_number : String
  iban : String
  deriving Repr, DecidableEq

/-- Issuer record (invoices.models.Company).  Modelled from the spec: the
model itself is not under src/; fields are those utils.py reads off
`invoice.company`.  Per spec §3 the issuer's bank details live only in the
stored default bank accounts, so the record carries no direct
bank_name/account_number/iban attributes and the `getattr` defaults at
utils.py:422-424 evaluate to the hard-coded literals. -/
structure Company where
  name : String
  tax_registration_number : Option String
  emirate : Option String
  city : Option String
  phone : Option String
  email : Option String
  address : Option String
  bank_details : List BankAccount
  deriving Repr, DecidableEq

/-- Counterparty record (invoices.models.Client); fields as read by
utils.py off `invoice.client`. -/
structure Client where
  name : String
  trn : Option String
  emirate : Option String
  city : Option String
  phone : Option String
  email : Option String
  address : Option String
  deriving Repr, DecidableEq

/-- One invoice line (invoices.models, related name `line_items`).
`quantity`, `unit_price` and `vat_rate` are Decimal columns, embedded as
exact rationals; `description` is nullable text. -/
structure LineItem where
  description : Option String
  quantity : ℚ
  unit_price : ℚ
  vat_rate : ℚ
  deriving Repr, DecidableEq

/-- Invoice aggregate (invoices.models.Invoice) with the fields utils.py
reads.  `total_amount` / `total_vat_amount` are the cached totals columns
used by the QR encoder (utils.py:82-83); `bank_details` is the optional
invoice-level JSON override read at utils.py:397-404, embedded as an
association list (a non-empty dict is truthy in Python, an empty one is
not); `issue_date_iso` is the issue date's `isoformat()` text (the
`datetime.utcnow()` fallback for a null issue date at utils.py:81 is not
modelled, the column being non-null — the PDF renderer dereferences it
unguarded at utils.py:148). -/
structure Invoice where
  invoice_number : String
  uuid : String
  issue_date_iso : String
  due_date : Option String
  emirate : Option String
  order_number : Option String
  total_amount : ℚ
  total_vat_amount : ℚ
  bank_details : Option (List (String × String))
  company : Company
  client : Client
  line_items : List LineItem
  deriving Repr, DecidableEq

/-- Python `a or b` on an optional string: `None` and the empty string are
falsy, anything else yields itself. -/
def pyOr (a : Option String) (b : String) : String :=
  match a with
  | some s => if s = "" then b else s
  | none => b

/-- Python `str.strip()` restricted to the ASCII whitespace the data can
contain. -/
def isSpaceChar (c : Char) : Bool :=
  c = ' ' ∨ c = '\t' ∨ c = '\n' ∨ c = '\r'

/-- Strip leading and trailing whitespace (Python `str.strip()`). -/
def pyStrip (s : String) : String :=
  String.mk (((s.data.dropWhile isSpaceChar).reverse.dropWhile isSpaceChar).reverse)

/-- `dict.get(key, default)` on the embedded JSON object. -/
def dictGet (d : List (String × String)) (k : String) (dflt : String) : String :=
  (d.lookup k).getD dflt

/-- Round a rational to the nearest integer, ties to even — the rounding
performed by Python `format(x, ".2f")`-style formatting (applied after
scaling by 100. `Int.fdiv` is floor division, so the remainder is the
nonnegative fractional part times the denominator). -/
def roundHalfEven (q : ℚ) : ℤ :=
  let f : ℤ := Int.fdiv q.num (q.den : ℤ)
  let rem : ℤ := q.num - f * (q.den : ℤ)
  if 2 * rem < (q.den : ℤ) then f
  else if (q.den : ℤ) < 2 * rem then f + 1
  else if f % 2 = 0 then f else f + 1

/-- Zero-padded two-digit fragment for the cents part. -/
def pad2 (m : ℕ) : String :=
  if m < 10 then "0" ++ toString m else toString m

/-- Python `f"\x7bx:.2f\x7d"`: fixed-point with exactly two decimals,
rounding half to even. -/
def format2 (q : ℚ) : String :=
  let n : ℤ := roundHalfEven (100 * q)
  let m : ℕ := n.natAbs
  (if n < 0 then "-" else "") ++ toString (m / 100) ++ "." ++ pad2 (m % 100)

/-- Insert thousands separators into a reversed digit list, grouping three
at a time; the fuel argument (instantiated with the list length) keeps the
recursion structural. -/
def commaGroupRevAux : ℕ → List Char → List Char
  | 0, l => l
  | _ + 1, a :: b :: c :: d :: rest =>
      a :: b :: c :: ',' :: commaGroupRevAux rest.length (d :: rest)
  | _ + 1, l => l

/-- Insert thousands separators into a digit string (works on the reversed
digit list, grouping three at a time). -/
def commaGroupRev (l : List Char) : List Char := commaGroupRevAux l.length l

/-- Python `f"\x7bx:,.2f\x7d"`: two decimals plus thousands separators, as
used for the monetary cells of the PDF renderer. -/
def commaFormat2 (q : ℚ) : String :=
  let n : ℤ := roundHalfEven (100 * q)
  let m : ℕ := n.natAbs
  (if n < 0 then "-" else "")
    ++ String.mk ((commaGroupRev (toString (m / 100)).data.reverse).reverse)
    ++ "." ++ pad2 (m % 100)

/-- Python `f"\x7bx:.0f\x7d"`: round to a whole number (used for the VAT
percent column of the PDF line table, utils.py:241). -/
def format0 (q : ℚ) : String :=
  let n : ℤ := roundHalfEven q
  (if n < 0 then "-" else "") ++ toString n.natAbs

/-- The fixed emirate → two-letter subentity code table (utils.py:38-52). -/
def EMIRATE_CODE_MAP : List (String × String) :=
  [("Abu Dhabi", "AZ"), ("AbuDhabi", "AZ"), ("Abu_Dhabi", "AZ"),
   ("Dubai", "DU"), ("Sharjah", "SH"), ("Ajman", "AJ"),
   ("Umm Al Quwain", "UQ"), ("Ras Al Khaimah", "RK"), ("Fujairah", "FU"),
   ("AD", "AZ"), ("DU", "DU"), ("SH", "SH")]

/-- utils.py:55-58: empty input maps to the empty string, otherwise look the
stripped name up in the fixed table, defaulting to the first two characters
of the (unstripped) name, uppercased.  `Char.toUpper` matches Python
`str.upper()` on the ASCII data in play. -/
def get_emirate_code (emirate_name : String) : String :=
  if emirate_name = "" then ""
  else
    (EMIRATE_CODE_MAP.lookup (pyStrip emirate_name)).getD
      (String.mk ((emirate_name.data.take 2).map Char.toUpper))

/-- The seven-emirate region enumeration.  Modelled from the spec: the
closed enumeration is declared in invoices.models, which is not under src/;
spec §3 fixes it to the seven UAE emirates, whose display names are the
primary keys of `EMIRATE_CODE_MAP`. -/
def SEVEN_EMIRATES : List String :=
  ["Abu Dhabi", "Dubai", "Sharjah", "Ajman",
   "Umm Al Quwain", "Ras Al Khaimah", "Fujairah"]

/-- UTF-8 encoding of one character, as byte values (Python
`str.encode("utf-8")`, one scalar value at a time). -/
def utf8EncodeChar (c : Char) : List ℕ :=
  if c.toNat < 128 then [c.toNat]
  else if c.toNat < 2048 then [192 + c.toNat / 64, 128 + c.toNat % 64]
  else if c.toNat < 65536 then
    [224 + c.toNat / 4096, 128 + c.toNat / 64 % 64, 128 + c.toNat % 64]
  else
    [240 + c.toNat / 262144, 128 + c.toNat / 4096 % 64,
     128 + c.toNat / 64 % 64, 128 + c.toNat % 64]

/-- UTF-8 encoding of a character sequence. -/
def utf8Bytes : List Char → List ℕ
  | [] => []
  | c :: cs => utf8EncodeChar c ++ utf8Bytes cs

/-- The standard base64 alphabet. -/
def B64_CHARS : List Char :=
  "ABCDEFGHIJKLMNOPQRSTUVWXYZabcdefghijklmnopqrstuvwxyz0123456789+/".data

/-- Sextet value → base64 character. -/
def encB64Char (n : ℕ) : Char := B64_CHARS.getD n '?'

/-- Index of a character in the base64 alphabet, if any. -/
def b64Index : List Char → Char → Option ℕ
  | [], _ => none
  | a :: rest, c => if c = a then some 0 else (b64Index rest c).map (· + 1)

/-- Base64 character → sextet value (padding and foreign characters map to
`none`). -/
def decB64Char (c : Char) : Option ℕ := b64Index B64_CHARS c

/-- Standard base64 encoding of a byte sequence, three bytes to four
characters, with `=` padding (Python `base64.b64encode`). -/
def b64EncodeBytes : List ℕ → List Char
  | [] => []
  | [a] => [encB64Char (a / 4), encB64Char (a % 4 * 16), '=', '=']
  | [a, b] =>
      [encB64Char (a / 4), encB64Char (a % 4 * 16 + b / 16),
       encB64Char (b % 16 * 4), '=']
  | a :: b :: c :: rest =>
      encB64Char (a / 4) :: encB64Char (a % 4 * 16 + b / 16) ::
      encB64Char (b % 16 * 4 + c / 64) :: encB64Char (c % 64) ::
      b64EncodeBytes rest

/-- Standard base64 decoding back to bytes (Python `base64.b64decode` on
well-formed input). -/
def b64DecodeChars : List Char → Option (List ℕ)
  | [] => some []
  | c1 :: c2 :: c3 :: c4 :: rest =>
      (decB64Char c1).bind fun x1 =>
      (decB64Char c2).bind fun x2 =>
      if c3 = '=' then
        if c4 = '=' then
          if rest = [] then some [x1 * 4 + x2 / 16] else none
        else none
      else
        (decB64Char c3).bind fun x3 =>
        if c4 = '=' then
          if rest = [] then some [x1 * 4 + x2 / 16, x2 % 16 * 16 + x3 / 4]
          else none
        else
          (decB64Char c4).bind fun x4 =>
          (b64DecodeChars rest).map fun tail =>
            (x1 * 4 + x2 / 16) :: (x2 % 16 * 16 + x3 / 4) ::
            (x3 % 4 * 64 + x4) :: tail
  | _ => none

/-- Base64-decode a string into bytes. -/
def b64DecodeString (s : String) : Option (List ℕ) := b64DecodeChars s.data

/-- One TLV record as the Fatoora encoder's `to_tlv` builds it
(utils.py:73-77): a tag byte, a length byte holding the UTF-8 byte count of
the value, then the value bytes.  `bytes([tag, n])` raises `ValueError`
when the length exceeds 255, which is modelled as `none` (the overflow
behaviour the spec flags as an open question in §4.2/§9). -/
def to_tlv (tag : ℕ) (value : String) : Option (List ℕ) :=
  let value_bytes := utf8Bytes value.data
  if value_bytes.length ≤ 255 then some (tag :: value_bytes.length :: value_bytes)
  else none

/-- The grand-total text carried in QR tag 4 (utils.py:82): the *cached*
invoice totals `total_amount + total_vat_amount`, formatted to two
decimals — not the line-item-derived grand total the renderers compute. -/
def qr_grand_total_value (inv : Invoice) : String :=
  format2 (inv.total_amount + inv.total_vat_amount)

/-- The VAT text carried in QR tag 5 (utils.py:83): the cached
`total_vat_amount`, formatted to two decimals. -/
def qr_vat_value (inv : Invoice) : String :=
  format2 inv.total_vat_amount

/-- utils.py:68-86.  Builds the five mandated TLV records — 1 seller name,
2 TRN, 3 ISO-8601 issue timestamp, 4 grand total, 5 VAT total — and
base64-encodes the concatenation.  A `ValueError` from an over-long field
propagates, modelled as `none`. -/
def generate_fatoora_qr (inv : Invoice) : Option String :=
  match to_tlv 1 inv.company.name,
        to_tlv 2 (inv.company.tax_registration_number.getD ""),
        to_tlv 3 inv.issue_date_iso,
        to_tlv 4 (qr_grand_total_value inv),
        to_tlv 5 (qr_vat_value inv) with
  | some seller, some trn, some issue_date, some total, some vat =>
      some (String.mk (b64EncodeBytes (seller ++ trn ++ issue_date ++ total ++ vat)))
  | _, _, _, _, _ => none

/-- All five QR fields fit the single-byte TLV length limit; this is the
regime in which the encoder returns (spec §4.2 flags the overflow case as
an open question — in the source it raises). -/
abbrev QrFieldsFit (inv : Invoice) : Prop :=
  (utf8Bytes inv.company.name.data).length ≤ 255
  ∧ (utf8Bytes (inv.company.tax_registration_number.getD "").data).length ≤ 255
  ∧ (utf8Bytes inv.issue_date_iso.data).length ≤ 255
  ∧ (utf8Bytes (qr_grand_total_value inv).data).length ≤ 255
  ∧ (utf8Bytes (qr_vat_value inv).data).length ≤ 255

/-- Parse a byte sequence as consecutive TLV records: each record is one
tag byte, one length byte, then that many value bytes. -/
def tlvParse : List ℕ → Option (List (ℕ × List ℕ))
  | [] => some []
  | [_] => none
  | t :: n :: rest =>
      if n ≤ rest.length then
        match tlvParse (rest.drop n) with
        | some records => some ((t, rest.take n) :: records)
        | none => none
      else none
termination_by l => l.length
decreasing_by simp [List.length_drop]; omega

/-- The resolved payment-details triple rendered in the PDF payment box. -/
structure BankDetails where
  bank_name : String
  account_number : String
  iban : String
  deriving Repr, DecidableEq, Inhabited

/-- The issuer's stored default account
(`invoice.company.bank_details.filter(is_default=True).first()`,
utils.py:410). -/
def company_default_bank (c : Company) : Option BankAccount :=
  (c.bank_details.filter (fun b => b.is_default)).head?

/-- utils.py:389-425, three-tier resolution.  Tier 1: a truthy (non-empty)
invoice-level JSON dict wins, each of the three keys individually
defaulting to the hard-coded literal when absent.  Tier 2: the issuer's
default stored account (the `hasattr` probe always succeeds on the related
manager, and the `try`/`except` guard has nothing to catch here).  Tier 3:
`getattr(invoice.company, ..., literal)` — the Company model has no such
direct attributes (see `Company`), so the literals are returned. -/
def get_bank_details_for_invoice (inv : Invoice) : BankDetails :=
  match inv.bank_details with
  | some d =>
      if d = [] then
        match company_default_bank inv.company with
        | some b => { bank_name := b.bank_name, account_number := b.account_number, iban := b.iban }
        | none =>
            { bank_name := "Emirates NBD", account_number := "1234 5678 9012",
              iban := "AE00 1234 5678 9012" }
      else
        { bank_name := dictGet d "bank_name" "Emirates NBD",
          account_number := dictGet d "account_number" "1234 5678 9012",
          iban := dictGet d "iban" "AE00 1234 5678 9012" }
  | none =>
      match company_default_bank inv.company with
      | some b => { bank_name := b.bank_name, account_number := b.account_number, iban := b.iban }
      | none =>
          { bank_name := "Emirates NBD", account_number := "1234 5678 9012",
            iban := "AE00 1234 5678 9012" }

/-- Per-line net amount: `qty * unit_price` (utils.py:230, 565, 600). -/
def lineNet (it : LineItem) : ℚ := it.quantity * it.unit_price

/-- Per-line VAT amount: `net * vat_rate` (utils.py:231, 566, 601). -/
def lineVat (it : LineItem) : ℚ := lineNet it * it.vat_rate

/-- Per-line gross amount: `net + vat` (utils.py:232, 602). -/
def lineGross (it : LineItem) : ℚ := lineNet it + lineVat it

/-- The PDF renderer's `subtotal` accumulator (utils.py:223, 234). -/
def pdfSubtotal (items : List LineItem) : ℚ :=
  items.foldl (fun acc it => acc + lineNet it) 0

/-- The PDF renderer's `total_vat` accumulator (utils.py:224, 235). -/
def pdfTotalVat (items : List LineItem) : ℚ :=
  items.foldl (fun acc it => acc + lineVat it) 0

/-- The XML renderer's `line_extension_amount` accumulator
(utils.py:556, 568). -/
def xmlLineExtensionAmount (items : List LineItem) : ℚ :=
  items.foldl (fun acc it => acc + lineNet it) 0

/-- The XML renderer's `total_vat` accumulator (utils.py:557, 569). -/
def xmlTotalVat (items : List LineItem) : ℚ :=
  items.foldl (fun acc it => acc + lineVat it) 0

/-- One row of the PDF line-item table (utils.py:237-244): description,
unit price, quantity, VAT percent, VAT amount, line total — monetary cells
with the AED prefix and thousands separators. -/
def pdfLineRow (it : LineItem) : List String :=
  [it.description.getD "",
   "AED " ++ commaFormat2 it.unit_price,
   format2 it.quantity,
   format0 (it.vat_rate * 100) ++ "%",
   "AED " ++ commaFormat2 (lineVat it),
   "AED " ++ commaFormat2 (lineGross it)]

/-- The texts of the PDF document the claims concern: the layout-only
reportlab plumbing (styles, spacers, column widths, the rendered QR image
file) is not embedded, the cell strings are. -/
structure PdfDoc where
  company_name : String
  invoice_number : String
  payment_details : BankDetails
  line_rows : List (List String)
  subtotal_cell : String
  vat_total_cell : String
  grand_total_cell : String
  qr_payload : String
  uuid_text : String
  deriving Repr, DecidableEq, Inhabited

/-- utils.py:91-386.  The totals cells come from the running
subtotal/total_vat accumulators with `grand_total = subtotal + total_vat`
(utils.py:246, 277-281).  `generate_fatoora_qr` is invoked at utils.py:319
*outside* any handler, so an over-long QR field's `ValueError` aborts the
whole PDF build — modelled by propagating `none`. -/
def generate_invoice_pdf (inv : Invoice) : Option PdfDoc :=
  match generate_fatoora_qr inv with
  | none => none
  | some qr =>
      some
        { company_name := inv.company.name,
          invoice_number := inv.invoice_number,
          payment_details := get_bank_details_for_invoice inv,
          line_rows := inv.line_items.map pdfLineRow,
          subtotal_cell := "AED " ++ commaFormat2 (pdfSubtotal inv.line_items),
          vat_total_cell := "AED " ++ commaFormat2 (pdfTotalVat inv.line_items),
          grand_total_cell :=
            "AED " ++ commaFormat2 (pdfSubtotal inv.line_items + pdfTotalVat inv.line_items),
          qr_payload := qr,
          uuid_text := inv.uuid }

/-- One UBL InvoiceLine element's texts (utils.py:595-632). -/
structure XmlLine where
  id : String
  quantity_text : String
  line_extension_text : String
  description : String
  price_text : String
  tax_amount_text : String
  taxable_amount_text : String
  percent_text : String
  deriving Repr, DecidableEq

/-- utils.py:604-630: per-line element texts, amounts to two decimals and
the line-level percent as `vat_rate * 100` to two decimals. -/
def xmlLineOf (idx : ℕ) (it : LineItem) : XmlLine :=
  { id := toString idx,
    quantity_text := format2 it.quantity,
    line_extension_text := format2 (lineNet it),
    description := it.description.getD "",
    price_text := format2 it.unit_price,
    tax_amount_text := format2 (lineVat it),
    taxable_amount_text := format2 (lineNet it),
    percent_text := format2 (it.vat_rate * 100) }

/-- The element texts of the UBL document the claims concern.  Static
boilerplate elements (CustomizationID, ProfileID, the namespace plumbing,
the signature placeholder) and the date elements are omitted from the
record; the fixed codes are kept as fields so the shape is visible. -/
structure XmlDoc where
  id : String
  uuid_text : String
  invoice_type_code : String
  currency_code : String
  supplier_trn : String
  supplier_name : String
  supplier_city : String
  supplier_subentity_code : String
  customer_trn : String
  customer_name : String
  customer_city : String
  customer_subentity_code : String
  payment_means_code : String
  tax_amount_text : String
  taxable_amount_text : String
  subtotal_tax_amount_text : String
  tax_category_id : String
  tax_category_percent : ℚ
  lines : List XmlLine
  lmt_line_extension_text : String
  lmt_tax_exclusive_text : String
  lmt_tax_inclusive_text : String
  lmt_payable_text : String
  qr_attachment : Option String
  deriving Repr, DecidableEq

/-- utils.py:429-684.  Amounts are recomputed from the line items
(utils.py:555-574), never read from the cached invoice totals;
`TaxInclusiveAmount` and `PayableAmount` both carry
`taxable_amount + total_vat` (utils.py:641-642).  The invoice-level
`TaxCategory/Percent` (utils.py:586) reads
`getattr(invoice.line_items.first(), "vat_rate", 0.05) * 100`; the guard
`if getattr(invoice, "line_items", None)` tests the related *manager*,
which is always truthy, so its `else 5` branch is dead and an empty line
set takes the `getattr` default `0.05`.  The QR attachment is built inside
`try`/`except` (utils.py:647-665), so an encoder failure degrades to an
omitted block (`none`) rather than aborting. -/
def generate_invoice_xml (inv : Invoice) : XmlDoc :=
  let company_emirate := pyOr inv.company.emirate (pyOr inv.company.city "Dubai")
  let customer_emirate :=
    pyOr inv.emirate (pyOr inv.client.emirate (pyOr inv.client.city
      (pyOr (some company_emirate) "Dubai")))
  let line_extension_amount := xmlLineExtensionAmount inv.line_items
  let total_vat := xmlTotalVat inv.line_items
  let taxable_amount := line_extension_amount
  let tax_inclusive_amount := taxable_amount + total_vat
  { id := inv.invoice_number,
    uuid_text := inv.uuid,
    invoice_type_code := "380",
    currency_code := "AED",
    supplier_trn := inv.company.tax_registration_number.getD "",
    supplier_name := inv.company.name,
    supplier_city := company_emirate,
    supplier_subentity_code := get_emirate_code company_emirate,
    customer_trn := inv.client.trn.getD "",
    customer_name := inv.client.name,
    customer_city := customer_emirate,
    customer_subentity_code := get_emirate_code customer_emirate,
    payment_means_code := "30",
    tax_amount_text := format2 total_vat,
    taxable_amount_text := format2 taxable_amount,
    subtotal_tax_amount_text := format2 total_vat,
    tax_category_id := "S",
    tax_category_percent :=
      ((inv.line_items.head?.map (fun it => it.vat_rate)).getD (5 / 100)) * 100,
    lines := (List.range inv.line_items.length).zip inv.line_items
      |>.map (fun p => xmlLineOf (p.1 + 1) p.2),
    lmt_line_extension_text := format2 line_extension_amount,
    lmt_tax_exclusive_text := format2 taxable_amount,
    lmt_tax_inclusive_text := format2 tax_inclusive_amount,
    lmt_payable_text := format2 tax_inclusive_amount,
    qr_attachment := generate_fatoora_qr inv }

/-- Modelled from the spec: the document-generation API boundary
`render_pdf(invoice) -> (success, bytes | null)` of §6 lives in the
invoices app, which is not under src/.  Per §7 any rendering exception is
caught at this boundary and surfaced as a boolean failure with a null
payload; the possibility of a layout-engine exception is made explicit as
the `exc` outcome parameter, and the encoder's own `ValueError` path
(`generate_invoice_pdf` returning `none`) is caught the same way. -/
def render_pdf (inv : Invoice) (exc : Option String) : Bool × Option PdfDoc :=
  match exc with
  | some _ => (false, none)
  | none =>
      match generate_invoice_pdf inv with
      | some doc => (true, some doc)
      | none => (false, none)

/-- Modelled from the spec: the `render_xml(invoice) -> (success, text |
null)` boundary of §6, not under src/; same catch-all contract as
`render_pdf` (§7), around the total XML builder. -/
def render_xml (inv : Invoice) (exc : Option String) : Bool × Option XmlDoc :=
  match exc with
  | some _ => (false, none)
  | none => (true, some (generate_invoice_xml inv))

/-! ### Concrete sample data for witnesses and counterexamples -/

/-- A stored default bank account of the sample issuer. -/
def sampleAccount : BankAccount :=
  { is_default := true, bank_name := "ADCB",
    account_number := "9999 0000 1111", iban := "AE07 0331 2345 6789 0123" }

/-- Sample issuer with no stored bank accounts. -/
def sampleCompany : Company :=
  { name := "Test Trading LLC",
    tax_registration_number := some "100000000000003",
    emirate := some "Dubai", city := none,
    phone := some "0501234567", email := some "billing@test.ae",
    address := some "Office 1, Business Bay",
    bank_details := [] }

/-- Sample counterparty. -/
def sampleClient : Client :=
  { name := "Client FZE", trn := some "100000000000004",
    emirate := none, city := none, phone := none, email := none,
    address := none }

/-- Sample line: 1 x 50.00 at 5% VAT. -/
def sampleLine : LineItem :=
  { description := some "Consulting services", quantity := 1,
    unit_price := 50, vat_rate := 5 / 100 }

/-- Sample invoice whose cached totals match its single line
(net 50.00, VAT 2.50, grand total 52.50). -/
def sampleInvoice : Invoice :=
  { invoice_number := "INV-0001-0001",
    uuid := "11111111-2222-3333-4444-555555555555",
    issue_date_iso := "2026-01-15",
    due_date := some "2026-02-15",
    emirate := some "Dubai", order_number := none,
    total_amount := 50, total_vat_amount := 5 / 2,
    bank_details := none,
    company := sampleCompany, client := sampleClient,
    line_items := [sampleLine] }

/-- Invoice whose cached totals (100.00 + 5.00) have drifted away from its
line items (which derive 52.50) — the state spec §4.4 contemplates with
"if cached totals and live line items ever diverge". -/
def driftedInvoice : Invoice :=
  { sampleInvoice with total_amount := 100, total_vat_amount := 5 }

/-- Invoice with no line items at all. -/
def emptyLinesInvoice : Invoice :=
  { sampleInvoice with line_items := [], total_amount := 0, total_vat_amount := 0 }

/-- Invoice with no line items whose seller name occupies 256 UTF-8 bytes,
overflowing the single-byte TLV length field. -/
def oversizedNameInvoice : Invoice :=
  { emptyLinesInvoice with
    company := { sampleCompany with name := String.mk (List.replicate 256 'A') } }

/-- The exact rational value of the IEEE-754 double nearest to 2.675,
i.e. the value `float(Decimal("2.675"))` takes when utils.py:228 converts
the stored unit price; it lies a hair *below* 2.675. -/
def double_2675 : ℚ := 3011782250804019 / 1125899906842624

/-- A single line of quantity 1, unit price 2.675, no VAT: the half-way
case on which binary-float and exact-decimal two-decimal formatting
disagree. -/
def halfwayLine : LineItem :=
  { description := some "Halfway item", quantity := 1,
    unit_price := 2675 / 1000, vat_rate := 0 }

/-! ### Helper lemmas: UTF-8 and base64 -/

/-- Every UTF-8 byte of a single character is below 256. -/
theorem utf8EncodeChar_lt (c : Char) : ∀ b ∈ utf8EncodeChar c, b < 256 := by
  have hv : c.toNat < 55296 ∨ (57344 ≤ c.toNat ∧ c.toNat < 1114112) := c.valid
  intro b hb
  unfold utf8EncodeChar at hb
  split_ifs at hb with h1 h2 h3 <;> simp at hb <;> omega

/-- Every UTF-8 byte of a character sequence is below 256. -/
theorem utf8Bytes_lt (l : List Char) : ∀ b ∈ utf8Bytes l, b < 256 := by
  induction l with
  | nil => intro b hb; simp [utf8Bytes] at hb
  | cons c cs ih =>
      intro b hb
      simp only [utf8Bytes, List.mem_append] at hb
      rcases hb with h | h
      · exact utf8EncodeChar_lt c b h
      · exact ih b h

/-- Decoding inverts encoding on each sextet (finite check). -/
theorem decB64Char_encB64Char_fin :
    ∀ x : Fin 64, decB64Char (encB64Char x.val) = some x.val := by decide

/-- No sextet encodes to the padding character (finite check). -/
theorem encB64Char_ne_pad_fin : ∀ x : Fin 64, encB64Char x.val ≠ '=' := by decide

/-- Decoding inverts encoding on each sextet. -/
theorem decB64Char_encB64Char (x : ℕ) (h : x < 64) :
    decB64Char (encB64Char x) = some x :=
  decB64Char_encB64Char_fin ⟨x, h⟩

/-- No sextet encodes to the padding character. -/
theorem encB64Char_ne_pad (x : ℕ) (h : x < 64) : encB64Char x ≠ '=' :=
  encB64Char_ne_pad_fin ⟨x, h⟩

/-- Auxiliary strong induction for the base64 round trip. -/
theorem b64_decode_encode_aux (n : ℕ) :
    ∀ l : List ℕ, l.length ≤ n → (∀ b ∈ l, b < 256) →
      b64DecodeChars (b64EncodeBytes l) = some l := by
  induction n with
  | zero =>
      intro l hl _
      have hnil : l = [] := List.eq_nil_of_length_eq_zero (Nat.le_zero.mp hl)
      subst hnil; rfl
  | succ n ih =>
      intro l hl hb
      rcases l with _ | ⟨a, l⟩
      · rfl
      rcases l with _ | ⟨b, l⟩
      · have ha : a < 256 := hb a (by simp)
        have h1 := decB64Char_encB64Char (a / 4) (by omega)
        have h2 := decB64Char_encB64Char (a % 4 * 16) (by omega)
        simp only [b64EncodeBytes, b64DecodeChars, h1, h2, Option.some_bind,
          ite_true, Option.some.injEq, List.cons.injEq, and_true]
        omega
      rcases l with _ | ⟨c, rest⟩
      · have ha : a < 256 := hb a (by simp)
        have hbb : b < 256 := hb b (by simp)
        have h1 := decB64Char_encB64Char (a / 4) (by omega)
        have h2 := decB64Char_encB64Char (a % 4 * 16 + b / 16) (by omega)
        have h3 := decB64Char_encB64Char (b % 16 * 4) (by omega)
        have hne3 := encB64Char_ne_pad (b % 16 * 4) (by omega)
        simp only [b64EncodeBytes, b64DecodeChars, h1, h2, h3, Option.some_bind,
          if_neg hne3, ite_true, Option.some.injEq, List.cons.injEq, and_true]
        omega
      · have ha : a < 256 := hb a (by simp)
        have hbb : b < 256 := hb b (by simp)
        have hc : c < 256 := hb c (by simp)
        have h1 := decB64Char_encB64Char (a / 4) (by omega)
        have h2 := decB64Char_encB64Char (a % 4 * 16 + b / 16) (by omega)
        have h3 := decB64Char_encB64Char (b % 16 * 4 + c / 64) (by omega)
        have h4 := decB64Char_encB64Char (c % 64) (by omega)
        have hne3 := encB64Char_ne_pad (b % 16 * 4 + c / 64) (by omega)
        have hne4 := encB64Char_ne_pad (c % 64) (by omega)
        have hrest : b64DecodeChars (b64EncodeBytes rest) = some rest := by
          refine ih rest (by simp at hl; omega) ?_
          intro x hx
          exact hb x (by simp [hx])
        simp only [b64EncodeBytes, b64DecodeChars, h1, h2, h3, h4, hrest,
          Option.some_bind, if_neg hne3, if_neg hne4, Option.map_some',
          Option.some.injEq, List.cons.injEq, and_true, true_and]
        omega

/-- Base64 decoding inverts base64 encoding on byte sequences. -/
theorem b64_decode_encode (l : List ℕ) (hb : ∀ b ∈ l, b < 256) :
    b64DecodeChars (b64EncodeBytes l) = some l :=
  b64_decode_encode_aux l.length l le_rfl hb

/-! ### Helper lemmas: TLV parsing and the QR payload -/

/-- Parsing peels one well-formed TLV record off the front. -/
theorem tlvParse_cons (t : ℕ) (v rest : List ℕ) :
    tlvParse (t :: v.length :: (v ++ rest)) =
      (tlvParse rest).map (fun records => (t, v) :: records) := by
  rw [tlvParse]
  rw [if_pos (by simp : v.length ≤ (v ++ rest).length)]
  rw [List.take_left, List.drop_left]
  cases h : tlvParse rest <;> simp

/-- Parsing a single well-formed TLV record. -/
theorem tlvParse_single (t : ℕ) (v : List ℕ) :
    tlvParse (t :: v.length :: v) = some [(t, v)] := by
  rw [tlvParse, if_pos (le_refl v.length), List.take_length, List.drop_length]
  simp [tlvParse]

/-- Bytes of a cons stay below 256 when head and tail do. -/
theorem mem_cons_lt {x : ℕ} {l : List ℕ} (hx : x < 256)
    (hl : ∀ b ∈ l, b < 256) : ∀ b ∈ x :: l, b < 256 := by
  intro b hb
  rcases List.mem_cons.mp hb with h | h
  · omega
  · exact hl b h

/-- Bytes of an append stay below 256 when both sides' do. -/
theorem mem_append_lt {l1 l2 : List ℕ} (h1 : ∀ b ∈ l1, b < 256)
    (h2 : ∀ b ∈ l2, b < 256) : ∀ b ∈ l1 ++ l2, b < 256 := by
  intro b hb
  rcases List.mem_append.mp hb with h | h
  · exact h1 b h
  · exact h2 b h

/-- When every field fits the single-byte length limit, the encoder returns
the base64 text of the five concatenated TLV records. -/
theorem generate_fatoora_qr_of_fit (inv : Invoice) (h : QrFieldsFit inv) :
    generate_fatoora_qr inv =
      some (String.mk (b64EncodeBytes
        ((1 :: (utf8Bytes inv.company.name.data).length :: utf8Bytes inv.company.name.data)
         ++ (2 :: (utf8Bytes (inv.company.tax_registration_number.getD "").data).length ::
              utf8Bytes (inv.company.tax_registration_number.getD "").data)
         ++ (3 :: (utf8Bytes inv.issue_date_iso.data).length :: utf8Bytes inv.issue_date_iso.data)
         ++ (4 :: (utf8Bytes (qr_grand_total_value inv).data).length ::
              utf8Bytes (qr_grand_total_value inv).data)
         ++ (5 :: (utf8Bytes (qr_vat_value inv).data).length ::
              utf8Bytes (qr_vat_value inv).data)))) := by
  obtain ⟨h1, h2, h3, h4, h5⟩ := h
  simp only [generate_fatoora_qr, to_tlv, if_pos h1, if_pos h2, if_pos h3,
    if_pos h4, if_pos h5]

/-! ### Claim theorems -/

/-- Claim C2: for every invoice whose five QR fields fit the single-byte
TLV length limit (the regime in which the encoder returns a string),
base64-decoding the returned string yields exactly five TLV records in
fixed tag order 1 (seller name), 2 (TRN), 3 (ISO-8601 issue timestamp),
4 (grand total), 5 (VAT total), each record being one tag byte, one length
byte holding the UTF-8 byte count of the value, then those value bytes —
`tlvParse` accepts precisely that record format — and the tag-4 / tag-5
values are the UTF-8 bytes of the grand-total and VAT amounts formatted to
exactly two decimal places. -/
theorem c2_qr_tlv_round_trip (inv : Invoice) (h : QrFieldsFit inv) :
    ∃ s payload, generate_fatoora_qr inv = some s
      ∧ b64DecodeString s = some payload
      ∧ tlvParse payload = some
          [(1, utf8Bytes inv.company.name.data),
           (2, utf8Bytes (inv.company.tax_registration_number.getD "").data),
           (3, utf8Bytes inv.issue_date_iso.data),
           (4, utf8Bytes (qr_grand_total_value inv).data),
           (5, utf8Bytes (qr_vat_value inv).data)] := by
  obtain ⟨h1, h2, h3, h4, h5⟩ := h
  have hqr := generate_fatoora_qr_of_fit inv ⟨h1, h2, h3, h4, h5⟩
  refine ⟨_,
    (1 :: (utf8Bytes inv.company.name.data).length :: utf8Bytes inv.company.name.data)
      ++ (2 :: (utf8Bytes (inv.company.tax_registration_number.getD "").data).length ::
           utf8Bytes (inv.company.tax_registration_number.getD "").data)
      ++ (3 :: (utf8Bytes inv.issue_date_iso.data).length :: utf8Bytes inv.issue_date_iso.data)
      ++ (4 :: (utf8Bytes (qr_grand_total_value inv).data).length ::
           utf8Bytes (qr_grand_total_value inv).data)
      ++ (5 :: (utf8Bytes (qr_vat_value inv).data).length ::
           utf8Bytes (qr_vat_value inv).data),
    hqr, ?_, ?_⟩
  · show b64DecodeChars _ = _
    refine b64_decode_encode _ ?_
    refine mem_append_lt (mem_append_lt (mem_append_lt (mem_append_lt ?_ ?_) ?_) ?_) ?_
    all_goals
      refine mem_cons_lt (by omega) (mem_cons_lt (by omega) (utf8Bytes_lt _))
  · simp only [List.append_assoc, List.cons_append]
    rw [tlvParse_cons, tlvParse_cons, tlvParse_cons, tlvParse_cons, tlvParse_single]
    simp only [Option.map_some']

unseal Rat.add Rat.mul Rat.sub Rat.inv in
/-- Claim C2 witness: the round trip instantiated at the concrete sample
invoice, whose five QR fields all fit the length limit. -/
theorem c2_qr_tlv_round_trip_witness :
    QrFieldsFit sampleInvoice
    ∧ ∃ s payload, generate_fatoora_qr sampleInvoice = some s
        ∧ b64DecodeString s = some payload
        ∧ tlvParse payload = some
            [(1, utf8Bytes sampleInvoice.company.name.data),
             (2, utf8Bytes (sampleInvoice.company.tax_registration_number.getD "").data),
             (3, utf8Bytes sampleInvoice.issue_date_iso.data),
             (4, utf8Bytes (qr_grand_total_value sampleInvoice).data),
             (5, utf8Bytes (qr_vat_value sampleInvoice).data)] :=
  ⟨by decide, c2_qr_tlv_round_trip sampleInvoice (by decide)⟩

/-- Claim C1 (amended): the PDF and XML renderers derive the grand total
from the line items, while the QR tag-4 field carries the cached invoice
totals; whenever the cached totals equal the line-item-derived grand total
(the §3 invariant), all three encodings agree on the grand total to two
decimal places. -/
theorem c1_encodings_agree_on_grand_total (inv : Invoice)
    (h : inv.total_amount + inv.total_vat_amount =
      pdfSubtotal inv.line_items + pdfTotalVat inv.line_items) :
    qr_grand_total_value inv = (generate_invoice_xml inv).lmt_tax_inclusive_text
    ∧ qr_grand_total_value inv = (generate_invoice_xml inv).lmt_payable_text
    ∧ ∀ doc, generate_invoice_pdf inv = some doc →
        doc.grand_total_cell =
          "AED " ++ commaFormat2 (inv.total_amount + inv.total_vat_amount) := by
  have hx : (generate_invoice_xml inv).lmt_tax_inclusive_text
      = format2 (pdfSubtotal inv.line_items + pdfTotalVat inv.line_items) := rfl
  have hp : (generate_invoice_xml inv).lmt_payable_text
      = format2 (pdfSubtotal inv.line_items + pdfTotalVat inv.line_items) := rfl
  refine ⟨?_, ?_, ?_⟩
  · rw [qr_grand_total_value, hx, h]
  · rw [qr_grand_total_value, hp, h]
  · intro doc hdoc
    unfold generate_invoice_pdf at hdoc
    cases hq : generate_fatoora_qr inv with
    | none => rw [hq] at hdoc; exact absurd hdoc (by simp)
    | some q =>
        rw [hq] at hdoc
        have hd := Option.some.inj hdoc
        rw [← hd, h]

unseal Rat.add Rat.mul Rat.sub Rat.inv in
/-- Claim C1 counterexample: on an invoice whose cached totals (100.00 +
5.00) have drifted from its line items (1 x 50.00 at 5 percent, hence
52.50), the QR tag-4 grand total "105.00" differs from the XML
TaxInclusiveAmount "52.50" — the claim's universal three-way agreement
fails. -/
theorem c1_counterexample :
    qr_grand_total_value driftedInvoice
      ≠ (generate_invoice_xml driftedInvoice).lmt_tax_inclusive_text := by decide

unseal Rat.add Rat.mul Rat.sub Rat.inv in
/-- Claim C1 witness: on the sample invoice, whose cached totals match its
line items, the QR tag-4 text equals the XML TaxInclusiveAmount text. -/
theorem c1_encodings_agree_witness :
    (sampleInvoice.total_amount + sampleInvoice.total_vat_amount =
      pdfSubtotal sampleInvoice.line_items + pdfTotalVat sampleInvoice.line_items)
    ∧ qr_grand_total_value sampleInvoice
        = (generate_invoice_xml sampleInvoice).lmt_tax_inclusive_text :=
  ⟨by decide, (c1_encodings_agree_on_grand_total sampleInvoice (by decide)).1⟩

/-- Claim C3: for every invoice, the PDF renderer and the XML renderer
report the same grand total: the XML TaxInclusiveAmount and PayableAmount
texts are exactly the two-decimal rendering of the PDF's
`subtotal + total_vat`, and the PDF's GRAND TOTAL cell is the AED-prefixed
rendering of the XML's line-item-derived `taxable + total_vat` — both
renderers fold the same `net = qty * unit_price`, `vat = net * vat_rate`
arithmetic over the same line set. -/
theorem c3_pdf_xml_same_grand_total (inv : Invoice) :
    (generate_invoice_xml inv).lmt_tax_inclusive_text
        = format2 (pdfSubtotal inv.line_items + pdfTotalVat inv.line_items)
    ∧ (generate_invoice_xml inv).lmt_payable_text
        = format2 (pdfSubtotal inv.line_items + pdfTotalVat inv.line_items)
    ∧ ∀ doc, generate_invoice_pdf inv = some doc →
        doc.grand_total_cell = "AED " ++ commaFormat2
          (xmlLineExtensionAmount inv.line_items + xmlTotalVat inv.line_items) := by
  refine ⟨rfl, rfl, ?_⟩
  intro doc hdoc
  unfold generate_invoice_pdf at hdoc
  cases hq : generate_fatoora_qr inv with
  | none => rw [hq] at hdoc; exact absurd hdoc (by simp)
  | some q =>
      rw [hq] at hdoc
      have hd := Option.some.inj hdoc
      rw [← hd]
      rfl

unseal Rat.add Rat.mul Rat.sub Rat.inv in
/-- Claim C3 witness: the PDF grand-total cell of the sample invoice's
generated document carries the XML-side line-derived grand total. -/
theorem c3_pdf_xml_same_grand_total_witness :
    (generate_invoice_pdf sampleInvoice).iget.grand_total_cell
      = "AED " ++ commaFormat2
          (xmlLineExtensionAmount sampleInvoice.line_items
            + xmlTotalVat sampleInvoice.line_items) :=
  (c3_pdf_xml_same_grand_total sampleInvoice).2.2
    (generate_invoice_pdf sampleInvoice).iget (by decide)

unseal Rat.add Rat.mul Rat.sub Rat.inv in
/-- Claim C4 (documenting the code bug): the line-calculator formulas do
hold (`net = qty * unit_price`, aggregates summed, grand = subtotal + VAT),
but the source performs them in binary floating point, not exact decimal
arithmetic — utils.py:227-229/561-563 cast the Decimal columns through
`float(...)` (the `Decimal` import at utils.py:9 is never used).  At a
line of quantity 1 and unit price 2.675 the exact-decimal subtotal demanded
by the claim renders as "2.68", while the IEEE-754 double nearest 2.675
(the value the code actually formats) renders as "2.67". -/
theorem c4_exact_decimal_vs_binary_float :
    pdfSubtotal [halfwayLine] = 2675 / 1000
    ∧ xmlLineExtensionAmount [halfwayLine] = 2675 / 1000
    ∧ format2 (pdfSubtotal [halfwayLine]) = "2.68"
    ∧ format2 double_2675 = "2.67"
    ∧ double_2675 ≠ 2675 / 1000 := by
  refine ⟨by decide, by decide, by decide, by decide, by decide⟩

/-- Claim C5: the spec-modelled render boundary never lets an exception
reach the caller — every outcome is a boolean-plus-payload pair in which
failure always carries a null payload and a produced payload always comes
with success, for both `render_pdf` and `render_xml`, whatever exception
the underlying renderer raised. -/
theorem c5_render_boundary_total (inv : Invoice) (exc : Option String) :
    ((render_pdf inv exc).1 = false → (render_pdf inv exc).2 = none)
    ∧ (∀ doc, (render_pdf inv exc).2 = some doc → (render_pdf inv exc).1 = true)
    ∧ ((render_xml inv exc).1 = false → (render_xml inv exc).2 = none)
    ∧ (∀ xml, (render_xml inv exc).2 = some xml → (render_xml inv exc).1 = true) := by
  cases exc with
  | some e =>
      refine ⟨fun _ => rfl, ?_, fun _ => rfl, ?_⟩
      · intro doc hdoc; exact absurd hdoc (by simp [render_pdf])
      · intro xml hxml; exact absurd hxml (by simp [render_xml])
  | none =>
      refine ⟨?_, ?_, ?_, ?_⟩
      · intro hfail
        unfold render_pdf at hfail ⊢
        cases hq : generate_invoice_pdf inv with
        | none => simp [hq]
        | some doc => rw [hq] at hfail; exact absurd hfail (by simp)
      · intro doc _
        unfold render_pdf
        cases hq : generate_invoice_pdf inv with
        | none =>
            unfold render_pdf at *
            rename_i hdoc
            rw [hq] at hdoc
            exact absurd hdoc (by simp)
        | some d => simp [hq]
      · intro hfail; exact absurd hfail (by simp [render_xml])
      · intro xml _; rfl

unseal Rat.add Rat.mul Rat.sub Rat.inv in
/-- Claim C5 witness: at a concrete exception outcome the boundary reports
(false, none); at the success outcome the XML boundary reports success. -/
theorem c5_render_boundary_total_witness :
    ((render_pdf sampleInvoice (some "reportlab layout error")).1 = false
      ∧ (render_pdf sampleInvoice (some "reportlab layout error")).2 = none)
    ∧ (render_xml sampleInvoice none).2 = some (generate_invoice_xml sampleInvoice)
    ∧ (render_xml sampleInvoice none).1 = true :=
  ⟨⟨rfl, (c5_render_boundary_total sampleInvoice (some "reportlab layout error")).1 rfl⟩,
   rfl,
   (c5_render_boundary_total sampleInvoice none).2.2.2 (generate_invoice_xml sampleInvoice) rfl⟩

/-- Claim C6: rendered payment details follow the three-tier resolution
order exactly — a truthy invoice-level override wins (its keys filled
per-key from the hard-coded literals when absent); otherwise the issuer's
stored default account is used; and when neither exists the result is
exactly the hard-coded triple Emirates NBD / "1234 5678 9012" /
"AE00 1234 5678 9012". -/
theorem c6_bank_details_three_tier (inv : Invoice) :
    (∀ d, inv.bank_details = some d → d ≠ [] →
      get_bank_details_for_invoice inv =
        { bank_name := dictGet d "bank_name" "Emirates NBD",
          account_number := dictGet d "account_number" "1234 5678 9012",
          iban := dictGet d "iban" "AE00 1234 5678 9012" })
    ∧ ((inv.bank_details = none ∨ inv.bank_details = some []) →
      ∀ b, company_default_bank inv.company = some b →
        get_bank_details_for_invoice inv =
          { bank_name := b.bank_name, account_number := b.account_number,
            iban := b.iban })
    ∧ ((inv.bank_details = none ∨ inv.bank_details = some []) →
      company_default_bank inv.company = none →
        get_bank_details_for_invoice inv =
          { bank_name := "Emirates NBD", account_number := "1234 5678 9012",
            iban := "AE00 1234 5678 9012" }) := by
  refine ⟨?_, ?_, ?_⟩
  · intro d hd hne
    unfold get_bank_details_for_invoice
    rw [hd]
    simp only [if_neg hne]
  · intro hbd b hb
    rcases hbd with h | h <;>
      (unfold get_bank_details_for_invoice; rw [h]) <;>
      simp only [ite_true, hb]
  · intro hbd hnone
    rcases hbd with h | h <;>
      (unfold get_bank_details_for_invoice; rw [h]) <;>
      simp only [ite_true, hnone]

/-- Claim C6 witness: the three tiers at three concrete invoices — an
override of only the bank name wins and fills the other keys from the
literals; with no override, the issuer's stored default account is used;
with neither, the hard-coded triple results. -/
theorem c6_bank_details_three_tier_witness :
    get_bank_details_for_invoice
        { sampleInvoice with bank_details := some [("bank_name", "Mashreq")] }
      = { bank_name := "Mashreq", account_number := "1234 5678 9012",
          iban := "AE00 1234 5678 9012" }
    ∧ get_bank_details_for_invoice
        { sampleInvoice with
          company := { sampleCompany with bank_details := [sampleAccount] } }
      = { bank_name := "ADCB", account_number := "9999 0000 1111",
          iban := "AE07 0331 2345 6789 0123" }
    ∧ get_bank_details_for_invoice sampleInvoice
      = { bank_name := "Emirates NBD", account_number := "1234 5678 9012",
          iban := "AE00 1234 5678 9012" } := by
  refine ⟨?_, ?_, ?_⟩
  · exact (c6_bank_details_three_tier
      { sampleInvoice with bank_details := some [("bank_name", "Mashreq")] }).1
      [("bank_name", "Mashreq")] rfl (by decide)
  · exact (c6_bank_details_three_tier
      { sampleInvoice with
        company := { sampleCompany with bank_details := [sampleAccount] } }).2.1
      (Or.inl rfl) sampleAccount (by decide)
  · exact (c6_bank_details_three_tier sampleInvoice).2.2 (Or.inl rfl) (by decide)

/-- Claim C7: each of the seven defined emirate region values maps to its
documented two-letter subentity code through the fixed lookup table, and
any non-empty region string whose stripped form is not in the table maps
to its first two characters, uppercased. -/
theorem c7_emirate_region_codes :
    SEVEN_EMIRATES.map get_emirate_code = ["AZ", "DU", "SH", "AJ", "UQ", "RK", "FU"]
    ∧ ∀ s : String, s ≠ "" → EMIRATE_CODE_MAP.lookup (pyStrip s) = none →
        get_emirate_code s = String.mk ((s.data.take 2).map Char.toUpper) := by
  constructor
  · decide
  · intro s hne hnone
    unfold get_emirate_code
    rw [if_neg hne, hnone]
    rfl

/-- Claim C7 witness: the undefined region string "Foo" is outside the
table and maps to "FO". -/
theorem c7_emirate_region_codes_witness :
    ("Foo" ≠ "" ∧ EMIRATE_CODE_MAP.lookup (pyStrip "Foo") = none)
    ∧ get_emirate_code "Foo" = String.mk (("Foo".data.take 2).map Char.toUpper)
    ∧ get_emirate_code "Foo" = "FO" :=
  ⟨⟨by decide, by decide⟩,
   c7_emirate_region_codes.2 "Foo" (by decide) (by decide),
   by decide⟩

set_option maxRecDepth 4000 in
unseal Rat.add Rat.mul Rat.sub Rat.inv in
/-- Claim C8 counterexample: an invoice with an empty line-item set does
not always render successfully — with a 256-byte seller name the QR
encoder's `bytes([tag, length])` raises (`to_tlv` returns `none`) and,
being invoked outside any handler at utils.py:319, aborts the PDF build,
so "both renderers succeed" fails as a universal statement. -/
theorem c8_counterexample :
    oversizedNameInvoice.line_items = []
      ∧ generate_invoice_pdf oversizedNameInvoice = none := by
  refine ⟨rfl, ?_⟩
  decide

unseal Rat.add Rat.mul Rat.sub Rat.inv in
/-- Claim C8 (amended): for every invoice with an empty line-item set, the
XML renderer succeeds unconditionally with all tax and monetary totals
rendered "0.00" (an encoder failure only degrades the QR attachment,
utils.py:647-665); and provided the five QR fields fit the single-byte TLV
length limit (utils.py's unhandled overflow, spec §4.2/§9 open question)
the PDF renderer also succeeds, its subtotal, VAT-total and grand-total
cells all reading "AED 0.00". -/
theorem c8_empty_lines_zero_totals (inv : Invoice)
    (hempty : inv.line_items = []) :
    ((generate_invoice_xml inv).taxable_amount_text = "0.00"
      ∧ (generate_invoice_xml inv).tax_amount_text = "0.00"
      ∧ (generate_invoice_xml inv).lmt_line_extension_text = "0.00"
      ∧ (generate_invoice_xml inv).lmt_tax_exclusive_text = "0.00"
      ∧ (generate_invoice_xml inv).lmt_tax_inclusive_text = "0.00"
      ∧ (generate_invoice_xml inv).lmt_payable_text = "0.00")
    ∧ (QrFieldsFit inv →
        ∃ doc, generate_invoice_pdf inv = some doc
          ∧ doc.subtotal_cell = "AED 0.00"
          ∧ doc.vat_total_cell = "AED 0.00"
          ∧ doc.grand_total_cell = "AED 0.00") := by
  constructor
  · refine ⟨?_, ?_, ?_, ?_, ?_, ?_⟩
    all_goals
      show format2 _ = "0.00"
      rw [hempty]
      decide
  · intro hfit
    have hqr := generate_fatoora_qr_of_fit inv hfit
    refine ⟨_, by unfold generate_invoice_pdf; rw [hqr], ?_, ?_, ?_⟩
    all_goals
      show "AED " ++ commaFormat2 _ = "AED 0.00"
      rw [hempty]
      decide

unseal Rat.add Rat.mul Rat.sub Rat.inv in
/-- Claim C8 witness: the concrete empty-line sample invoice renders with
all-zero totals in both documents. -/
theorem c8_empty_lines_zero_totals_witness :
    (emptyLinesInvoice.line_items = [] ∧ QrFieldsFit emptyLinesInvoice)
    ∧ (generate_invoice_xml emptyLinesInvoice).lmt_payable_text = "0.00"
    ∧ (∃ doc, generate_invoice_pdf emptyLinesInvoice = some doc
        ∧ doc.subtotal_cell = "AED 0.00"
        ∧ doc.vat_total_cell = "AED 0.00"
        ∧ doc.grand_total_cell = "AED 0.00") :=
  ⟨⟨rfl, by decide⟩,
   (c8_empty_lines_zero_totals emptyLinesInvoice rfl).1.2.2.2.2.2,
   (c8_empty_lines_zero_totals emptyLinesInvoice rfl).2 (by decide)⟩

/-- Claim C9: the invoice-level TaxCategory Percent emitted by the XML
renderer is the first line item's `vat_rate` times 100, whatever the rates
of the remaining lines — replacing everything after the first line leaves
it unchanged — and an empty line set yields the hard-coded
`getattr(..., 0.05)` default times 100 (the `else 5` branch at utils.py:586
is dead, the related manager being always truthy). -/
theorem c9_tax_category_percent_first_line (inv : Invoice) (l : LineItem)
    (rest rest2 : List LineItem) :
    (generate_invoice_xml { inv with line_items := l :: rest }).tax_category_percent
        = l.vat_rate * 100
    ∧ (generate_invoice_xml { inv with line_items := l :: rest }).tax_category_percent
        = (generate_invoice_xml { inv with line_items := l :: rest2 }).tax_category_percent
    ∧ (generate_invoice_xml { inv with line_items := [] }).tax_category_percent
        = (5 / 100 : ℚ) * 100 :=
  ⟨rfl, rfl, rfl⟩

/-- Claim C10: a truthy invoice-level bank-details dict short-circuits the
chain — each of the three keys is read from the dict with the hard-coded
literal as its per-key default, and the issuer's stored accounts are never
consulted: replacing them wholesale does not change the result. -/
theorem c10_partial_override_skips_issuer_defaults (inv : Invoice)
    (d : List (String × String)) (hd : inv.bank_details = some d) (hne : d ≠ []) :
    get_bank_details_for_invoice inv =
      { bank_name := dictGet d "bank_name" "Emirates NBD",
        account_number := dictGet d "account_number" "1234 5678 9012",
        iban := dictGet d "iban" "AE00 1234 5678 9012" }
    ∧ ∀ accts : List BankAccount,
        get_bank_details_for_invoice
          { inv with company := { inv.company with bank_details := accts } }
          = get_bank_details_for_invoice inv := by
  have resolve : ∀ j : Invoice, j.bank_details = some d →
      get_bank_details_for_invoice j =
        { bank_name := dictGet d "bank_name" "Emirates NBD",
          account_number := dictGet d "account_number" "1234 5678 9012",
          iban := dictGet d "iban" "AE00 1234 5678 9012" } := by
    intro j hj
    unfold get_bank_details_for_invoice
    rw [hj]
    simp only [if_neg hne]
  constructor
  · exact resolve inv hd
  · intro accts
    rw [resolve inv hd]
    exact resolve _ hd

/-- Claim C10 witness: an override dict holding only an IBAN takes the
other two fields from the literals, and swapping in a stored issuer
account changes nothing. -/
theorem c10_partial_override_skips_issuer_defaults_witness :
    get_bank_details_for_invoice
        { sampleInvoice with bank_details := some [("iban", "AE55 0000 1111 2222 3333")] }
      = { bank_name := "Emirates NBD", account_number := "1234 5678 9012",
          iban := "AE55 0000 1111 2222 3333" }
    ∧ get_bank_details_for_invoice
        { sampleInvoice with
          bank_details := some [("iban", "AE55 0000 1111 2222 3333")],
          company := { sampleCompany with bank_details := [sampleAccount] } }
      = get_bank_details_for_invoice
          { sampleInvoice with bank_details := some [("iban", "AE55 0000 1111 2222 3333")] } := by
  have h := c10_partial_override_skips_issuer_defaults
    { sampleInvoice with bank_details := some [("iban", "AE55 0000 1111 2222 3333")] }
    [("iban", "AE55 0000 1111 2222 3333")] rfl (by decide)
  exact ⟨h.1, h.2 [sampleAccount]⟩
